import Mathlib

/-!
Verification of the booksearch repository's Catalog Client and Response
Normalizer (src/narou_api.py), the orchestrator's cross-region library
combination block (src/app.py), and the map-rendering data preparation
(src/map_utils.py), as a shallow embedding in Lean 4.

Library boundaries are modelled as explicit inputs/outcomes:
* `xml.etree.ElementTree.fromstring` either raises `ParseError` or yields an
  element tree; its outcome is an `Except String Element` input.
* `requests.get` / `Response.raise_for_status` outcomes are a `CallOutcome`
  input (transport failure, an HTTP response with a status code and a body
  parse outcome, or any other unexpected exception during the call).
  Per the requests library, `raise_for_status` raises `HTTPError` (a
  `RequestException`) exactly for status codes in [400, 600).
* `pandas.to_numeric(errors="coerce")` on a string cell is modelled by a
  decimal-literal parser `toNumeric?` (optional sign, digits with an optional
  fractional part); non-parsing strings coerce to NaN.
-/

/-- An element of a parsed XML tree: tag name, text (the text content before
any child, `none` when absent), and the list of immediate child elements.
Mirrors the part of `xml.etree.ElementTree.Element` used by the repository. -/
inductive Element : Type where
  | mk (tag : String) (text : Option String) (children : List Element)

/-- Tag name of an element. -/
def Element.tag : Element → String
  | .mk t _ _ => t

/-- Text content of an element (`none` when the element has no text). -/
def Element.text : Element → Option String
  | .mk _ tx _ => tx

/-- Immediate child elements, in document order. -/
def Element.children : Element → List Element
  | .mk _ _ cs => cs

/-- Keyed update of an association list, the shared semantics of Python dict
assignment, pandas column assignment, and rebinding a name's heap slot: if
the key is present its value is replaced in place (position kept), otherwise
the pair is appended. -/
def assocSet {α β : Type} [DecidableEq α] (l : List (α × β)) (k : α) (v : β) :
    List (α × β) :=
  if l.any (fun p => p.1 = k) then
    l.map (fun p => if p.1 = k then (k, v) else p)
  else
    l ++ [(k, v)]

/-- Keyed lookup in an association list: value of the first pair with the
given key. -/
def assocFind? {α β : Type} [DecidableEq α] (l : List (α × β)) (k : α) :
    Option β :=
  (l.find? (fun p => p.1 = k)).map (fun p => p.2)

/-- A record produced by the normalizer: a Python dict modelled as an
insertion-ordered association list with unique keys. -/
abbrev Dict := List (String × String)

/-- Python dict assignment `d[k] = v`. -/
def dictInsert (d : Dict) (k v : String) : Dict :=
  assocSet d k v

/-- Python `str.strip()` with no argument: remove leading and trailing
whitespace characters. -/
def pyStrip (s : String) : String :=
  String.mk
    (List.reverse (List.dropWhile Char.isWhitespace
      (List.reverse (List.dropWhile Char.isWhitespace s.data))))

/-- `child.text.strip() if child.text else ""` from `_parse_xml_response`
(src/narou_api.py line 37): `None` and the empty string are falsy. -/
def extractText (c : Element) : String :=
  match c.text with
  | none => ""
  | some t => if t = "" then "" else pyStrip t

/-- The inner loop of `_parse_xml_response` (src/narou_api.py lines 34-38):
build `item_data` by inserting each immediate child's tag with its extracted
text into a dict, in document order. -/
def itemData (it : Element) : Dict :=
  it.children.foldl (fun d c => dictInsert d c.tag (extractText c)) []

/-- `root.find(result_tag)` followed by the fallback to `root` when absent
(src/narou_api.py lines 26-29). Per ElementTree, `find` with a plain tag
matches immediate children only. -/
def locateGroup (root : Element) (result_tag : String) : Element :=
  match root.children.find? (fun e => e.tag = result_tag) with
  | some e => e
  | none => root

/-- `results_element.findall(item_tag)` (src/narou_api.py line 31): the
immediate children of the group element whose tag matches, in document
order. -/
def findallItems (root : Element) (result_tag item_tag : String) : List Element :=
  (locateGroup root result_tag).children.filter (fun e => e.tag = item_tag)

/-- The accumulation loop of `_parse_xml_response` (src/narou_api.py lines
33-40): one dict per item, appended only when non-empty. -/
def collectItems (root : Element) (result_tag item_tag : String) : List Dict :=
  (findallItems root result_tag item_tag).foldl
    (fun acc it =>
      let d := itemData it
      if d ≠ [] then acc ++ [d] else acc)
    []

/-- An exception escaping a modelled Python computation. -/
inductive PyExc : Type where
  | parseError (msg : String)
  | other (msg : String)
deriving DecidableEq, Repr

/-- The body of the `try` block of `_parse_xml_response` (src/narou_api.py
lines 24-40): `ET.fromstring` may raise `ParseError` (the `Except.error`
case of the parse outcome); otherwise the items are collected. -/
def parseBody (xml : Except String Element) (result_tag item_tag : String) :
    Except PyExc (List Dict) :=
  match xml with
  | .error m => .error (.parseError m)
  | .ok root => .ok (collectItems root result_tag item_tag)

/-- `_parse_xml_response` (src/narou_api.py lines 10-45): run the body; the
`except ET.ParseError` / `except Exception` handlers swallow any exception
and fall through to `return items`, returning what was accumulated before the
failure — which is `[]`, since only `ET.fromstring` (run before any
accumulation) can raise. -/
def parse_xml_response (xml : Except String Element) (result_tag item_tag : String) :
    List Dict :=
  match parseBody xml result_tag item_tag with
  | .ok items => items
  | .error _ => []

/-! ## Catalog Client (src/narou_api.py, `search_books` and
`find_libraries_for_book`) -/

/-- `BASE_URL` (src/narou_api.py line 7). -/
def BASE_URL : String := "http://data4library.kr/api"

/-- An HTTP GET request as constructed by the client: endpoint URL and query
parameters (all values rendered as strings). -/
structure Request where
  endpoint : String
  params : List (String × String)
deriving DecidableEq, Repr

/-- Outcome of the effectful part of one operation's `try` block, supplied as
an input to the model:
* `transportFail`: `requests.get` raised a `requests.exceptions.RequestException`
  (connection refused, timeout, too many redirects, ...);
* `response status body`: an HTTP response was returned; `body` is the
  outcome of `ET.fromstring` on `response.text`;
* `unexpected`: some exception that is neither a `RequestException` nor a
  precondition failure was raised during the call. -/
inductive CallOutcome : Type where
  | transportFail (msg : String)
  | response (status : Nat) (body : Except String Element)
  | unexpected (msg : String)

/-- Result of one client operation, as seen by the caller:
a returned list of records, a raised `ValueError`, or a raised
`ConnectionError`. -/
inductive ApiResult : Type where
  | ok (records : List Dict)
  | valueError (msg : String)
  | connectionError (msg : String)
deriving DecidableEq, Repr

/-- `Response.raise_for_status` of the requests library raises `HTTPError`
(a subclass of `RequestException`) exactly when the status code lies in
[400, 600) (client or server error); 1xx/2xx/3xx responses do not raise. -/
def raiseForStatusRaises (status : Nat) : Bool :=
  400 ≤ status && status < 600

/-- `search_books` (src/narou_api.py lines 49-89). The outcome of the remote
call is the `net` input. Returns the caller-visible result together with the
list of network requests issued (empty when the precondition check fails).

Control flow from the source: an empty `api_key` raises `ValueError` before
the request is built; a `RequestException` from `requests.get` or
`raise_for_status` is re-raised as `ConnectionError` (raised inside the
`except RequestException` handler, hence not caught by the following
`except Exception`); any other exception during the call is swallowed and
`[]` is returned; otherwise the response body is normalized with group
`"docs"` and item `"doc"`. -/
def search_books (query api_key : String) (page_no page_size : Int)
    (net : CallOutcome) : ApiResult × List Request :=
  if api_key = "" then
    (.valueError "Narou API key is not configured.", [])
  else
    let req : Request :=
      { endpoint := BASE_URL ++ "/srchBooks",
        params := [("authKey", api_key), ("keyword", query),
                   ("pageNo", toString page_no), ("pageSize", toString page_size),
                   ("format", "xml")] }
    match net with
    | .transportFail m =>
        (.connectionError ("Failed to connect to Narou API: " ++ m), [req])
    | .unexpected _ => (.ok [], [req])
    | .response status body =>
        if raiseForStatusRaises status then
          (.connectionError
            ("Failed to connect to Narou API: HTTP " ++ toString status), [req])
        else
          (.ok (parse_xml_response body "docs" "doc"), [req])

/-- `find_libraries_for_book` (src/narou_api.py lines 91-137). Same structure
as `search_books` with three precondition checks in source order (`api_key`,
then `isbn13`, then `region_code`), the `/libSrchByBook` endpoint, and group
`"libs"` / item `"lib"` for normalization. -/
def find_libraries_for_book (isbn13 api_key region_code : String)
    (page_no page_size : Int) (net : CallOutcome) : ApiResult × List Request :=
  if api_key = "" then
    (.valueError "Narou API key is not configured.", [])
  else if isbn13 = "" then
    (.valueError "ISBN13 must be provided to find libraries.", [])
  else if region_code = "" then
    (.valueError "Region code must be provided for library search.", [])
  else
    let req : Request :=
      { endpoint := BASE_URL ++ "/libSrchByBook",
        params := [("authKey", api_key), ("isbn", isbn13),
                   ("region", region_code),
                   ("pageNo", toString page_no), ("pageSize", toString page_size),
                   ("format", "xml")] }
    match net with
    | .transportFail m =>
        (.connectionError ("Failed to connect to Narou API: " ++ m), [req])
    | .unexpected _ => (.ok [], [req])
    | .response status body =>
        if raiseForStatusRaises status then
          (.connectionError
            ("Failed to connect to Narou API: HTTP " ++ toString status), [req])
        else
          (.ok (parse_xml_response body "libs" "lib"), [req])

/-! ## Spec-side definition for the Normalizer's group-location rule

The spec says the Normalizer "locates the first element matching the group
name anywhere in the document". The source uses `root.find(result_tag)`,
which matches immediate children only; the following definitions formalise
the spec's words so the two can be compared. -/

mutual
/-- Modelled from the spec: the first element whose tag matches `g` anywhere
in the document (preorder: an element before its children, children in
document order). -/
def findAnywhere (g : String) : Element → Option Element
  | .mk t tx cs =>
      if t = g then some (.mk t tx cs) else findAnywhereInList g cs

/-- Modelled from the spec: first preorder match of `g` over a forest. -/
def findAnywhereInList (g : String) : List Element → Option Element
  | [] => none
  | e :: es =>
      match findAnywhere g e with
      | some r => some r
      | none => findAnywhereInList g es
end

/-- Modelled from the spec: the Normalizer behavior claimed by C6 — locate
the first element matching the group name anywhere in the document (the
top-level element when absent), scan it for item elements, and build one
record per item, items with no fields omitted. -/
def specNormalizeAnywhere (root : Element) (result_tag item_tag : String) :
    List Dict :=
  let grp := (findAnywhere result_tag root).getD root
  ((grp.children.filter (fun e => e.tag = item_tag)).filter
    (fun it => itemData it ≠ [])).map itemData

/-! ## DataFrame model (src/app.py lines 269-281 and src/map_utils.py)

A pandas DataFrame built from a list of dicts is modelled as a list of rows;
a cell is a string, a number, or NaN. A key absent from a row reads as NaN
(pandas fills missing keys with NaN when building the frame). -/

/-- One cell of a DataFrame. A parsed number is kept as an unnormalized
fraction `n / d` (with `d` a power of ten from the fractional digits); no
claim compares numeric values for equality, only parse success matters. -/
inductive Cell : Type where
  | str (s : String)
  | num (n : Int) (d : Nat)
  | nan
deriving DecidableEq, Repr

/-- Whether a cell is NaN. -/
def Cell.isNan : Cell → Bool
  | .nan => true
  | _ => false

/-- A row of a DataFrame: column name to cell, insertion-ordered. -/
abbrev Row := List (String × Cell)

/-- A DataFrame: its rows in order. -/
abbrev DataFrame := List Row

/-- Read a row's cell in column `k`; a missing column reads as NaN. -/
def getCell (r : Row) (k : String) : Cell :=
  (assocFind? r k).getD .nan

/-- Write a row's cell in column `k` (replace in place, append when new). -/
def setCell (r : Row) (k : String) (v : Cell) : Row :=
  assocSet r k v

/-- Numeric value of a digit list (most significant first). -/
def digitsToNat (cs : List Char) : Nat :=
  cs.foldl (fun n c => n * 10 + (c.toNat - 48)) 0

/-- `pandas.to_numeric(errors="coerce")` applied to one string: parse a
plain decimal literal (optional surrounding whitespace, optional sign,
digits with an optional single fractional point, at least one digit);
anything else coerces to NaN (`none`). Exponent and infinity forms are not
modelled; no claim depends on them. -/
def toNumeric? (s : String) : Option (Int × Nat) :=
  let cs := (pyStrip s).data
  let signed : Int × List Char :=
    match cs with
    | '-' :: r => (-1, r)
    | '+' :: r => (1, r)
    | r => (1, r)
  let sign := signed.1
  let ip := signed.2.takeWhile Char.isDigit
  let rest := signed.2.dropWhile Char.isDigit
  match rest with
  | [] => if ip.isEmpty then none else some (sign * (digitsToNat ip : Int), 1)
  | '.' :: fr =>
      let fp := fr.takeWhile Char.isDigit
      let rest2 := fr.dropWhile Char.isDigit
      if rest2.isEmpty && !(ip.isEmpty && fp.isEmpty) then
        some (sign * ((digitsToNat ip : Int) * (10 : Int) ^ fp.length +
          (digitsToNat fp : Int)), 10 ^ fp.length)
      else none
  | _ => none

/-- Coercion of one cell by `pandas.to_numeric(errors="coerce")`: strings
parse or become NaN, numbers stay, NaN stays. -/
def toNumericCell : Cell → Cell
  | .str s => match toNumeric? s with
              | some (n, d) => .num n d
              | none => .nan
  | .num n d => .num n d
  | .nan => .nan

/-- `df[k] = pd.to_numeric(df[k], errors="coerce")`: coerce column `k` in
every row. -/
def coerceCol (rows : DataFrame) (k : String) : DataFrame :=
  rows.map (fun r => setCell r k (toNumericCell (getCell r k)))

/-- The composition of the two column coercions, per row: coerce the
latitude cell, then the longitude cell. -/
def coerceRow (r : Row) : Row :=
  setCell (setCell r "latitude" (toNumericCell (getCell r "latitude")))
    "longitude" (toNumericCell (getCell r "longitude"))

/-- `df.dropna(subset=["latitude", "longitude"])`: keep rows whose latitude
and longitude cells are both non-NaN. -/
def dropnaLatLon (rows : DataFrame) : DataFrame :=
  rows.filter (fun r =>
    !(getCell r "latitude").isNan && !(getCell r "longitude").isNan)

/-- `df.drop_duplicates(subset=["libCode"])`: keep the first row for each
`libCode` cell value (pandas treats NaN keys as duplicates of each other). -/
def dropDupByCode : DataFrame → List Cell → DataFrame
  | [], _ => []
  | r :: rs, seen =>
      if getCell r "libCode" ∈ seen then dropDupByCode rs seen
      else r :: dropDupByCode rs (getCell r "libCode" :: seen)

/-- The orchestrator's library-combination block (src/app.py lines 269-281):
concatenate the two regions' record lists, coerce latitude then longitude to
numeric, drop rows with a NaN coordinate, then de-duplicate by `libCode`
keeping the first occurrence. -/
def libraryCombine (libraries_seoul libraries_gyeonggi : DataFrame) : DataFrame :=
  let libraries := libraries_seoul ++ libraries_gyeonggi
  let df := coerceCol libraries "latitude"
  let df := coerceCol df "longitude"
  let df := dropnaLatLon df
  dropDupByCode df []

/-! ## `render_map` (src/map_utils.py lines 5-49)

Python DataFrame variables are references into a heap, so that
`map_df = locations_df.copy()` followed by in-place mutation of `map_df`
is observable as leaving the frame behind `locations_df` untouched. -/

/-- A heap of allocated DataFrames, addressed by numeric references. -/
abbrev Heap := List (Nat × DataFrame)

/-- Read the DataFrame behind a reference (an unallocated reference reads as
the empty frame). -/
def hget (h : Heap) (r : Nat) : DataFrame :=
  (assocFind? h r).getD []

/-- Store a DataFrame at a reference. -/
def hset (h : Heap) (r : Nat) (v : DataFrame) : Heap :=
  assocSet h r v

/-- A reference not yet used by the heap. -/
def hfresh (h : Heap) : Nat :=
  (h.map (fun p => p.1)).foldr max 0 + 1

/-- Whether column `k` exists in the DataFrame (`k in df.columns`): the
frame's columns are the union of its rows' keys. -/
def hasColumn (df : DataFrame) (k : String) : Bool :=
  df.any (fun r => r.any (fun p => p.1 = k))

/-- `render_map` (src/map_utils.py lines 5-49), statement by statement on the
heap. Returns the heap after the call and the reference handed to `st.map`
(`none` when one of the early returns fired and nothing was displayed):
empty input frame, missing latitude/longitude column, or no row surviving
the numeric coercion and `dropna`. The `map_df = locations_df.copy()` line
allocates a fresh reference; the `to_numeric` assignments and the
`dropna(..., inplace=True)` write through that reference. -/
def render_map (h : Heap) (locations_df : Nat) : Heap × Option Nat :=
  let df := hget h locations_df
  if df.isEmpty then (h, none)
  else if !(hasColumn df "latitude" && hasColumn df "longitude") then (h, none)
  else
    let map_df := hfresh h
    let h1 := hset h map_df (hget h locations_df)
    let h2 := hset h1 map_df (coerceCol (hget h1 map_df) "latitude")
    let h3 := hset h2 map_df (coerceCol (hget h2 map_df) "longitude")
    let h4 := hset h3 map_df (dropnaLatLon (hget h3 map_df))
    if (hget h4 map_df).isEmpty then (h4, none) else (h4, some map_df)

/-! ## Concrete test documents and records used by individual claims -/

/-- A two-item book-search response document: the second item has no
children and yields no fields. -/
def sampleBooksDoc : Element :=
  .mk "response" none
    [.mk "docs" none
      [.mk "doc" none
        [.mk "bookname" (some " A ") [], .mk "isbn13" (some "9") []],
       .mk "doc" none []]]

/-- A document whose "docs" group exists but only nested below an
intermediate wrapper, never as an immediate child of the root. -/
def nestedGroupDoc : Element :=
  .mk "r" none
    [.mk "wrap" none
      [.mk "docs" none
        [.mk "doc" none [.mk "a" (some "x") []]]]]

/-- A document whose root directly contains three "doc" items with no
enclosing "docs" wrapper. -/
def flatDocsDoc : Element :=
  .mk "r" none
    [.mk "doc" none [.mk "t" (some "x") []],
     .mk "doc" none [.mk "t" (some "y") []],
     .mk "doc" none [.mk "t" (some "z") []]]

/-- A holdings response carrying two lib items with the same library code. -/
def dupLibsDoc : Element :=
  .mk "response" none
    [.mk "libs" none
      [.mk "lib" none [.mk "libCode" (some "111017") []],
       .mk "lib" none [.mk "libCode" (some "111017") []]]]

/-- A holdings response carrying two lib items with distinct library codes. -/
def twoLibsDoc : Element :=
  .mk "response" none
    [.mk "libs" none
      [.mk "lib" none [.mk "libCode" (some "111017") []],
       .mk "lib" none [.mk "libCode" (some "111004") []]]]

/-- Library record with parseable coordinates. -/
def rowL1 : Row :=
  [("libCode", .str "L1"), ("latitude", .str "37.5"), ("longitude", .str "127.0")]

/-- Library record whose latitude does not parse as a number. -/
def rowL2 : Row :=
  [("libCode", .str "L2"), ("latitude", .str "invalid"), ("longitude", .str "127.0")]

/-- Seoul-region record with code "A" and unparseable latitude. -/
def rowBadA1 : Row :=
  [("libCode", .str "A"), ("latitude", .str "invalid"), ("longitude", .str "127.0")]

/-- Gyeonggi-region record with code "A" and unparseable latitude. -/
def rowBadA2 : Row :=
  [("libCode", .str "A"), ("latitude", .str "invalid"), ("longitude", .str "127.05")]

/-- Seoul-region record with code "A" and parseable coordinates. -/
def rowGoodA1 : Row :=
  [("libCode", .str "A"), ("latitude", .str "37.5"), ("longitude", .str "127.0")]

/-- Gyeonggi-region record with code "A" and parseable coordinates. -/
def rowGoodA2 : Row :=
  [("libCode", .str "A"), ("latitude", .str "37.6"), ("longitude", .str "127.1")]

/-- Gyeonggi-region record with code "B" and parseable coordinates. -/
def rowGoodB : Row :=
  [("libCode", .str "B"), ("latitude", .str "37.7"), ("longitude", .str "127.2")]

/-! ## Lemmas about keyed association updates -/

theorem assocSet_ne_nil {α β : Type} [DecidableEq α] (l : List (α × β)) (k : α)
    (v : β) : assocSet l k v ≠ [] := by
  cases l with
  | nil => simp [assocSet]
  | cons p ps => by_cases h : (p :: ps).any (fun q => q.1 = k) <;> simp [assocSet, h]

theorem find?_mapReplace_self {α β : Type} [DecidableEq α] (l : List (α × β))
    (k : α) (v : β) (h : l.any (fun p => p.1 = k)) :
    (l.map (fun p => if p.1 = k then (k, v) else p)).find? (fun p => p.1 = k) =
      some (k, v) := by
  induction l with
  | nil => simp at h
  | cons p ps ih =>
      by_cases hp : p.1 = k
      · simp [hp]
      · have h' : ps.any (fun p => p.1 = k) := by
          simpa [hp] using h
        simpa [hp] using ih h'

theorem find?_mapReplace_ne {α β : Type} [DecidableEq α] (l : List (α × β))
    (k k' : α) (v : β) (h : k' ≠ k) :
    (l.map (fun p => if p.1 = k' then (k', v) else p)).find? (fun p => p.1 = k) =
      l.find? (fun p => p.1 = k) := by
  induction l with
  | nil => simp
  | cons p ps ih =>
      by_cases hp : p.1 = k'
      · have hk : ¬p.1 = k := by rw [hp]; exact h
        simp [hp, h, hk, ih]
      · simp only [List.map_cons, if_neg hp, List.find?_cons]
        by_cases hk : p.1 = k <;> simp [hk, ih]

theorem assocFind?_set_self {α β : Type} [DecidableEq α] (l : List (α × β))
    (k : α) (v : β) : assocFind? (assocSet l k v) k = some v := by
  by_cases h : l.any (fun p => p.1 = k)
  · simp [assocSet, h, assocFind?, find?_mapReplace_self l k v h]
  · have hnone : l.find? (fun p => p.1 = k) = none := by
      rw [List.find?_eq_none]
      intro x hx
      simp only [List.any_eq_true, not_exists, not_and] at h
      simpa using h x hx
    simp [assocSet, h, assocFind?, List.find?_append, hnone]

theorem assocFind?_set_ne {α β : Type} [DecidableEq α] (l : List (α × β))
    (k k' : α) (v : β) (h : k' ≠ k) :
    assocFind? (assocSet l k' v) k = assocFind? l k := by
  by_cases ha : l.any (fun p => p.1 = k')
  · simp [assocSet, ha, assocFind?, find?_mapReplace_ne l k k' v h]
  · simp [assocSet, ha, assocFind?, List.find?_append, h]

/-! ## Lemmas about the Response Normalizer -/

theorem foldl_dictInsert_ne_nil (l : List Element) (d : Dict) (h : d ≠ []) :
    l.foldl (fun d c => dictInsert d c.tag (extractText c)) d ≠ [] := by
  induction l generalizing d with
  | nil => exact h
  | cons c cs ih => exact ih _ (assocSet_ne_nil _ _ _)

theorem itemData_eq_nil_iff (it : Element) :
    itemData it = [] ↔ it.children = [] := by
  constructor
  · intro h
    cases hc : it.children with
    | nil => rfl
    | cons c cs =>
        exfalso
        apply foldl_dictInsert_ne_nil cs (dictInsert [] c.tag (extractText c))
          (assocSet_ne_nil _ _ _)
        have h' := h
        rw [itemData, hc, List.foldl_cons] at h'
        exact h'
  · intro h
    simp [itemData, h]

theorem foldl_collect_eq (l : List Element) (acc : List Dict) :
    l.foldl (fun acc it =>
        let d := itemData it
        if d ≠ [] then acc ++ [d] else acc) acc =
      acc ++ (l.filter (fun it => itemData it ≠ [])).map itemData := by
  induction l generalizing acc with
  | nil => simp
  | cons e es ih =>
      simp only [ne_eq, ite_not, List.foldl_cons, List.filter_cons] at ih ⊢
      by_cases h : itemData e = [] <;> simp [h, ih]

theorem collectItems_eq (root : Element) (result_tag item_tag : String) :
    collectItems root result_tag item_tag =
      ((findallItems root result_tag item_tag).filter
        (fun it => !it.children.isEmpty)).map itemData := by
  rw [collectItems, foldl_collect_eq, List.nil_append]
  congr 1
  apply List.filter_congr
  intro it _
  cases hc : it.children with
  | nil =>
      have hd : itemData it = [] := (itemData_eq_nil_iff it).mpr hc
      simp [hd, hc]
  | cons c cs =>
      have hd : itemData it ≠ [] := by
        rw [Ne, itemData_eq_nil_iff, hc]
        simp
      simp [hd, hc]

theorem dictFoldl_find_of_ne (l : List Element) (d : Dict) (k : String)
    (h : ∀ c ∈ l, c.tag ≠ k) :
    assocFind? (l.foldl (fun d c => dictInsert d c.tag (extractText c)) d) k =
      assocFind? d k := by
  induction l generalizing d with
  | nil => rfl
  | cons c cs ih =>
      rw [List.foldl_cons, ih _ (fun x hx => h x (List.mem_cons_of_mem _ hx)),
        dictInsert, assocFind?_set_ne _ _ _ _ (h c (List.mem_cons_self _ _))]

theorem dictFoldl_find_mem (l : List Element) (d : Dict) (c : Element)
    (hm : c ∈ l) (hnd : (l.map Element.tag).Nodup) :
    assocFind? (l.foldl (fun d c => dictInsert d c.tag (extractText c)) d) c.tag =
      some (extractText c) := by
  induction l generalizing d with
  | nil => cases hm
  | cons e es ih =>
      rw [List.map_cons, List.nodup_cons] at hnd
      rcases List.mem_cons.mp hm with h | h
      · subst h
        rw [List.foldl_cons]
        have hne : ∀ x ∈ es, x.tag ≠ c.tag := by
          intro x hx heq
          exact hnd.1 (heq ▸ List.mem_map_of_mem _ hx)
        rw [dictFoldl_find_of_ne es _ _ hne, dictInsert, assocFind?_set_self]
      · exact ih _ h hnd.2

theorem extractText_eq (c : Element) :
    extractText c = pyStrip ((c.text).getD "") := by
  cases h : c.text with
  | none => simp [extractText, h]; rfl
  | some t =>
      by_cases ht : t = "" <;> simp [extractText, h, ht]
      rfl

/-! ## Lemmas about cells, rows and the heap -/

theorem toNumericCell_num_or_nan (x : Cell) :
    (∃ n d, toNumericCell x = .num n d) ∨ toNumericCell x = .nan := by
  cases x with
  | str s =>
      cases h : toNumeric? s with
      | none => right; simp [toNumericCell, h]
      | some p =>
          obtain ⟨n, d⟩ := p
          left
          exact ⟨n, d, by simp [toNumericCell, h]⟩
  | num n d => left; exact ⟨n, d, rfl⟩
  | nan => right; rfl

theorem getCell_set_self (r : Row) (k : String) (v : Cell) :
    getCell (setCell r k v) k = v := by
  rw [getCell, setCell, assocFind?_set_self]
  rfl

theorem getCell_set_ne (r : Row) (k k' : String) (v : Cell) (h : k' ≠ k) :
    getCell (setCell r k' v) k = getCell r k := by
  rw [getCell, setCell, assocFind?_set_ne _ _ _ _ h, getCell]

theorem getCell_coerceRow_lat (r : Row) :
    getCell (coerceRow r) "latitude" = toNumericCell (getCell r "latitude") := by
  rw [coerceRow, getCell_set_ne _ _ _ _ (by decide), getCell_set_self]

theorem getCell_coerceRow_lon (r : Row) :
    getCell (coerceRow r) "longitude" = toNumericCell (getCell r "longitude") := by
  rw [coerceRow, getCell_set_self]

theorem getCell_coerceRow_code (r : Row) :
    getCell (coerceRow r) "libCode" = getCell r "libCode" := by
  rw [coerceRow, getCell_set_ne _ _ _ _ (by decide),
    getCell_set_ne _ _ _ _ (by decide)]

theorem coerce_both (df : DataFrame) :
    coerceCol (coerceCol df "latitude") "longitude" = df.map coerceRow := by
  simp only [coerceCol, List.map_map]
  apply List.map_congr_left
  intro r _
  simp only [Function.comp_apply, coerceRow]
  rw [getCell_set_ne _ _ _ _ (by decide)]

theorem hget_hset_self (h : Heap) (r : Nat) (v : DataFrame) :
    hget (hset h r v) r = v := by
  rw [hget, hset, assocFind?_set_self]
  rfl

theorem hget_hset_ne (h : Heap) (r r' : Nat) (v : DataFrame) (hne : r' ≠ r) :
    hget (hset h r' v) r = hget h r := by
  rw [hget, hset, assocFind?_set_ne _ _ _ _ hne, hget]

theorem le_foldr_max (l : List Nat) (k : Nat) (h : k ∈ l) :
    k ≤ l.foldr max 0 := by
  induction l with
  | nil => cases h
  | cons a as ih =>
      rcases List.mem_cons.mp h with rfl | h'
      · exact le_max_left _ _
      · exact le_trans (ih h') (le_max_right _ _)

theorem hfresh_ne_alloc (h : Heap) (r : Nat) (hr : assocFind? h r ≠ none) :
    hfresh h ≠ r := by
  intro he
  rcases hfind : h.find? (fun p => p.1 = r) with _ | p
  · exact hr (by simp [assocFind?, hfind])
  · have hmem := List.mem_of_find?_eq_some hfind
    have hpr : p.1 = r := by simpa using List.find?_some hfind
    have hle : p.1 ≤ (h.map (fun p => p.1)).foldr max 0 :=
      le_foldr_max _ _ (List.mem_map_of_mem _ hmem)
    rw [hpr] at hle
    rw [hfresh] at he
    omega

/-! ## Lemmas about the de-duplication step -/

theorem dropDup_countP (l : DataFrame) (seen : List Cell) (c : Cell) :
    (dropDupByCode l seen).countP (fun r => getCell r "libCode" = c) =
      if c ∈ seen then 0
      else if l.any (fun r => getCell r "libCode" = c) then 1 else 0 := by
  induction l generalizing seen with
  | nil => simp [dropDupByCode]
  | cons r rs ih =>
      rw [dropDupByCode]
      by_cases hseen : getCell r "libCode" ∈ seen
      · rw [if_pos hseen, ih]
        by_cases hc : c ∈ seen
        · simp [hc]
        · have hrc : ¬getCell r "libCode" = c := fun he => hc (he ▸ hseen)
          simp [hc, List.any_cons, hrc]
      · rw [if_neg hseen, List.countP_cons, ih]
        by_cases hrc : getCell r "libCode" = c
        · have hcs : c ∉ seen := hrc ▸ hseen
          simp [hrc, hcs, List.any_cons]
        · have hcr : c ≠ getCell r "libCode" := fun he => hrc he.symm
          by_cases hc : c ∈ seen
          · have hmem : c ∈ getCell r "libCode" :: seen :=
              List.mem_cons_of_mem _ hc
            simp [hc, hmem, hrc]
          · have hmem : c ∉ getCell r "libCode" :: seen := by
              intro hm
              rcases List.mem_cons.mp hm with he | he
              · exact hcr he
              · exact hc he
            simp [hc, hmem, List.any_cons, hrc]

theorem dropDup_find? (l : DataFrame) (seen : List Cell) (c : Cell)
    (h : c ∉ seen) :
    (dropDupByCode l seen).find? (fun r => getCell r "libCode" = c) =
      l.find? (fun r => getCell r "libCode" = c) := by
  induction l generalizing seen with
  | nil => simp [dropDupByCode]
  | cons r rs ih =>
      rw [dropDupByCode]
      by_cases hseen : getCell r "libCode" ∈ seen
      · rw [if_pos hseen, ih _ h, List.find?_cons]
        have hrc : ¬getCell r "libCode" = c := fun he => h (he ▸ hseen)
        simp [hrc]
      · rw [if_neg hseen, List.find?_cons, List.find?_cons]
        by_cases hrc : getCell r "libCode" = c
        · simp [hrc]
        · have h' : c ∉ getCell r "libCode" :: seen := by
            intro hm
            rcases List.mem_cons.mp hm with he | he
            · exact hrc he.symm
            · exact h he
          simp only [hrc, decide_eq_true_eq, if_neg]
          simp [hrc]
          exact ih _ h'

/-! ## Claim theorems -/

/-- C2: for every input string that is not a well-formed document (the
`ET.fromstring` outcome is a parse error), and for any group-element name
and item-element name, the Response Normalizer's try-block body fails with
that parse error, and the function catches it and returns the empty
sequence — no exception reaches the caller. -/
theorem C2_malformed_returns_empty (m result_tag item_tag : String) :
    parseBody (.error m) result_tag item_tag = .error (.parseError m) ∧
    parse_xml_response (.error m) result_tag item_tag = [] :=
  ⟨rfl, rfl⟩

/-- C3: calling either operation with an empty credential, or the
find-holding-libraries operation with an empty identifier or an empty
region code, returns a raised `ValueError` and an empty list of issued
network requests: the configuration error fires before any request is
constructed. -/
theorem C3_config_error_no_network (q isbn key region : String)
    (pn ps : Int) (net : CallOutcome) :
    (key = "" →
      search_books q key pn ps net =
        (.valueError "Narou API key is not configured.", [])) ∧
    (key = "" ∨ isbn = "" ∨ region = "" →
      ∃ msg, find_libraries_for_book isbn key region pn ps net =
        (.valueError msg, [])) := by
  constructor
  · intro hk
    simp [search_books, hk]
  · intro hor
    by_cases hk : key = ""
    · exact ⟨"Narou API key is not configured.",
        by simp [find_libraries_for_book, hk]⟩
    · rcases hor with h | h | h
      · exact absurd h hk
      · exact ⟨"ISBN13 must be provided to find libraries.",
          by simp [find_libraries_for_book, hk, h]⟩
      · by_cases hi : isbn = ""
        · exact ⟨"ISBN13 must be provided to find libraries.",
            by simp [find_libraries_for_book, hk, hi]⟩
        · exact ⟨"Region code must be provided for library search.",
            by simp [find_libraries_for_book, hk, hi, h]⟩

/-- Witness for C3: empty credential on the book search, and empty
identifier on the library search, each yield `ValueError` with no request
issued. -/
theorem C3_config_error_no_network_witness :
    (search_books "python" "" 1 20 (.transportFail "refused") =
      (.valueError "Narou API key is not configured.", [])) ∧
    ∃ msg, find_libraries_for_book "" "key" "11" 1 50 (.transportFail "refused") =
      (.valueError msg, []) :=
  ⟨(C3_config_error_no_network "python" "x" "" "11" 1 20
      (.transportFail "refused")).1 rfl,
   (C3_config_error_no_network "q" "" "key" "11" 1 50
      (.transportFail "refused")).2 (Or.inr (Or.inl rfl))⟩

/-- C4: for both operations, an exception during the call that is neither a
precondition failure nor a transport/HTTP-status failure is caught by the
`except Exception` handler and converted to an empty-list result rather
than propagated. -/
theorem C4_unexpected_swallowed (q isbn key region : String) (pn ps : Int)
    (m : String) (hk : key ≠ "") (hi : isbn ≠ "") (hr : region ≠ "") :
    (search_books q key pn ps (.unexpected m)).1 = .ok [] ∧
    (find_libraries_for_book isbn key region pn ps (.unexpected m)).1 = .ok [] := by
  constructor
  · simp [search_books, hk]
  · simp [find_libraries_for_book, hk, hi, hr]

/-- Witness for C4 at concrete inputs. -/
theorem C4_unexpected_swallowed_witness :
    (search_books "python" "key" 1 20 (.unexpected "boom")).1 = .ok [] ∧
    (find_libraries_for_book "9791162241776" "key" "11" 1 50
      (.unexpected "boom")).1 = .ok [] :=
  C4_unexpected_swallowed "python" "9791162241776" "key" "11" 1 20 "boom"
    (by decide) (by decide) (by decide)

/-- C1 (amended): whenever the remote call yields a transport failure or a
4xx/5xx HTTP status, both operations raise `ConnectionError` wrapping the
failure — never an empty-list result. (As stated over all non-2xx statuses
the claim fails: see the counterexample at status 304.) -/
theorem C1_service_error_raised (q isbn key region m : String) (pn ps : Int)
    (status : Nat) (body : Except String Element)
    (hk : key ≠ "") (hi : isbn ≠ "") (hr : region ≠ "")
    (h4 : 400 ≤ status) (h6 : status < 600) :
    (search_books q key pn ps (.transportFail m)).1 =
      .connectionError ("Failed to connect to Narou API: " ++ m) ∧
    (search_books q key pn ps (.response status body)).1 =
      .connectionError ("Failed to connect to Narou API: HTTP " ++ toString status) ∧
    (find_libraries_for_book isbn key region pn ps (.transportFail m)).1 =
      .connectionError ("Failed to connect to Narou API: " ++ m) ∧
    (find_libraries_for_book isbn key region pn ps (.response status body)).1 =
      .connectionError ("Failed to connect to Narou API: HTTP " ++ toString status) := by
  have hrs : raiseForStatusRaises status = true := by
    simp [raiseForStatusRaises, h4, h6]
  refine ⟨?_, ?_, ?_, ?_⟩ <;>
    simp [search_books, find_libraries_for_book, hk, hi, hr, hrs]

/-- Witness for C1 (amended) at a transport failure and at status 500. -/
theorem C1_service_error_raised_witness :
    (search_books "python" "key" 1 20 (.transportFail "refused")).1 =
      .connectionError ("Failed to connect to Narou API: " ++ "refused") ∧
    (search_books "python" "key" 1 20 (.response 500 (.error "boom"))).1 =
      .connectionError ("Failed to connect to Narou API: HTTP " ++ toString (500 : Nat)) ∧
    (find_libraries_for_book "9791162241776" "key" "11" 1 20
        (.transportFail "refused")).1 =
      .connectionError ("Failed to connect to Narou API: " ++ "refused") ∧
    (find_libraries_for_book "9791162241776" "key" "11" 1 20
        (.response 500 (.error "boom"))).1 =
      .connectionError ("Failed to connect to Narou API: HTTP " ++ toString (500 : Nat)) :=
  C1_service_error_raised "python" "9791162241776" "key" "11" "refused" 1 20
    500 (.error "boom") (by decide) (by decide) (by decide) (by decide) (by decide)

/-- C1 counterexample: a final HTTP status of 304 is non-2xx, yet
`raise_for_status` does not raise for it (it raises only for 4xx/5xx), so
`search_books` returns an empty list instead of raising `ConnectionError` —
refuting the claim for arbitrary non-2xx statuses. -/
theorem C1_non2xx_counterexample :
    (search_books "python" "key" 1 20 (.response 304 (.error "not xml"))).1 =
      .ok [] ∧
    ¬(200 ≤ 304 ∧ 304 < 300) := by
  constructor
  · decide
  · decide

/-- C5: for every well-formed document, the Normalizer returns one field
mapping per item element under the located group, in document order,
omitting exactly the items that yield no fields — an item's mapping is
empty precisely when it has no immediate children, since every immediate
child contributes a field; and when an item's children carry distinct tag
names, the item's mapping sends each immediate child's tag name to that
child's trimmed text content, the empty string when the child has no
text. -/
theorem C5_normalizer_shape (root : Element) (result_tag item_tag : String) :
    parse_xml_response (.ok root) result_tag item_tag =
      ((findallItems root result_tag item_tag).filter
        (fun it => !it.children.isEmpty)).map itemData ∧
    ∀ it ∈ findallItems root result_tag item_tag,
      (it.children.map Element.tag).Nodup →
      ∀ c ∈ it.children,
        assocFind? (itemData it) c.tag = some (pyStrip ((c.text).getD "")) := by
  constructor
  · exact collectItems_eq root result_tag item_tag
  · intro it _ hnd c hc
    rw [← extractText_eq]
    rw [itemData]
    exact dictFoldl_find_mem it.children [] c hc hnd

/-- Witness for C5 on a concrete two-item document: two items, the childless
one omitted, the kept mapping sending "bookname" to the trimmed text. -/
theorem C5_normalizer_shape_witness :
    parse_xml_response (.ok sampleBooksDoc) "docs" "doc" =
      ((findallItems sampleBooksDoc "docs" "doc").filter
        (fun it => !it.children.isEmpty)).map itemData ∧
    assocFind?
      (itemData (.mk "doc" none
        [.mk "bookname" (some " A ") [], .mk "isbn13" (some "9") []]))
      "bookname" = some "A" := by
  constructor
  · exact (C5_normalizer_shape sampleBooksDoc "docs" "doc").1
  · have h := (C5_normalizer_shape sampleBooksDoc "docs" "doc").2
      (.mk "doc" none
        [.mk "bookname" (some " A ") [], .mk "isbn13" (some "9") []])
      (List.Mem.head _) (by decide)
      (.mk "bookname" (some " A ") []) (List.Mem.head _)
    exact h

/-- C6 (amended): the Normalizer locates the first immediate child of the
top-level element matching the group name (ElementTree's `find` with a plain
tag does not search deeper); when no immediate child matches, the top-level
element itself is treated as the group, so a root that directly contains the
item elements with no group wrapper still yields one record per item — as on
the concrete three-item wrapperless document. -/
theorem C6_group_location (root : Element) (result_tag item_tag : String) :
    parse_xml_response (.ok root) result_tag item_tag =
      ((((root.children.find? (fun e => e.tag = result_tag)).getD
          root).children.filter
            (fun e => e.tag = item_tag)).filter
        (fun it => !it.children.isEmpty)).map itemData ∧
    parse_xml_response (.ok flatDocsDoc) "docs" "doc" =
      [[("t", "x")], [("t", "y")], [("t", "z")]] := by
  constructor
  · have h := collectItems_eq root result_tag item_tag
    rw [findallItems, locateGroup] at h
    cases hf : root.children.find? (fun e => e.tag = result_tag) with
    | none => rw [hf] at h; simpa using h
    | some e => rw [hf] at h; simpa using h
  · decide

/-- C6 counterexample: in this document an element named "docs" exists in
the document (nested below a wrapper) but is not an immediate child of the
root, so `root.find("docs")` misses it; the code falls back to the root,
finds no "doc" items there, and returns the empty list — while the claimed
locate-anywhere behavior yields the nested item's record. -/
theorem C6_anywhere_counterexample :
    parse_xml_response (.ok nestedGroupDoc) "docs" "doc" = [] ∧
    specNormalizeAnywhere nestedGroupDoc "docs" "doc" = [[("a", "x")]] := by
  constructor
  · decide
  · decide

/-- C9 (amended): the client performs no de-duplication within one holdings
lookup: the returned records are exactly the normalized response items, so
they are unique by library code precisely when the response's normalized
records carry pairwise-distinct libCode values. (Unconditionally the claim
fails: see the duplicate-code counterexample.) -/
theorem C9_unique_codes_conditional (isbn key region : String) (pn ps : Int)
    (status : Nat) (root : Element)
    (hk : key ≠ "") (hi : isbn ≠ "") (hr : region ≠ "")
    (hs : raiseForStatusRaises status = false)
    (hnd : ((parse_xml_response (.ok root) "libs" "lib").map
      (fun d => assocFind? d "libCode")).Nodup) :
    (find_libraries_for_book isbn key region pn ps
        (.response status (.ok root))).1 =
      .ok (parse_xml_response (.ok root) "libs" "lib") ∧
    (parse_xml_response (.ok root) "libs" "lib").Pairwise
      (fun d1 d2 => assocFind? d1 "libCode" ≠ assocFind? d2 "libCode") := by
  constructor
  · simp [find_libraries_for_book, hk, hi, hr, hs]
  · exact List.pairwise_map.mp hnd

/-- Witness for C9 (amended) on a two-lib response with distinct codes. -/
theorem C9_unique_codes_conditional_witness :
    (find_libraries_for_book "9791162241776" "key" "11" 1 50
        (.response 200 (.ok twoLibsDoc))).1 =
      .ok (parse_xml_response (.ok twoLibsDoc) "libs" "lib") ∧
    (parse_xml_response (.ok twoLibsDoc) "libs" "lib").Pairwise
      (fun d1 d2 => assocFind? d1 "libCode" ≠ assocFind? d2 "libCode") :=
  C9_unique_codes_conditional "9791162241776" "key" "11" 1 50 200 twoLibsDoc
    (by decide) (by decide) (by decide) (by decide) (by decide)

/-- C9 counterexample: a response whose two lib items carry the same
library code passes through the client unchanged, so one lookup's result
holds two records with the same libCode value — refuting unconditional
uniqueness. -/
theorem C9_duplicate_code_counterexample :
    (find_libraries_for_book "9791162241776" "key" "11" 1 50
        (.response 200 (.ok dupLibsDoc))).1 =
      .ok [[("libCode", "111017")], [("libCode", "111017")]] ∧
    ¬([[("libCode", "111017")], [("libCode", "111017")]] : List Dict).Pairwise
      (fun d1 d2 => assocFind? d1 "libCode" ≠ assocFind? d2 "libCode") := by
  constructor
  · decide
  · intro h
    rcases List.pairwise_cons.mp h with ⟨h1, _⟩
    exact h1 _ (List.Mem.head _) rfl

/-- C7 (amended): concatenating the two regions' results and de-duplicating
by library code yields each shared code exactly once — provided at least one
record in each region carries the code and the records carrying it have
numerically parseable latitude and longitude (the coordinate filter that
runs before de-duplication would otherwise drop them); the kept row is the
first surviving occurrence. -/
theorem C7_combined_dedup (s g : DataFrame) (c : Cell)
    (hs : ∃ r ∈ s, getCell r "libCode" = c)
    (hg : ∃ r ∈ g, getCell r "libCode" = c)
    (hvalid : ∀ r ∈ s ++ g, getCell r "libCode" = c →
      (∃ n d, toNumericCell (getCell r "latitude") = Cell.num n d) ∧
      (∃ n d, toNumericCell (getCell r "longitude") = Cell.num n d)) :
    (libraryCombine s g).countP (fun r => getCell r "libCode" = c) = 1 ∧
    (libraryCombine s g).find? (fun r => getCell r "libCode" = c) =
      (dropnaLatLon (coerceCol (coerceCol (s ++ g) "latitude")
        "longitude")).find? (fun r => getCell r "libCode" = c) := by
  have hL : libraryCombine s g =
      dropDupByCode (dropnaLatLon (s.map coerceRow ++ g.map coerceRow)) [] := by
    simp only [libraryCombine]
    rw [coerce_both, List.map_append]
  obtain ⟨r0, hr0s, hr0c⟩ := hs
  obtain ⟨⟨na, da, ha⟩, ⟨no, dd, ho⟩⟩ :=
    hvalid r0 (List.mem_append_left _ hr0s) hr0c
  have hmemL : coerceRow r0 ∈
      dropnaLatLon (s.map coerceRow ++ g.map coerceRow) := by
    rw [dropnaLatLon, List.mem_filter]
    refine ⟨List.mem_append_left _ (List.mem_map_of_mem _ hr0s), ?_⟩
    rw [getCell_coerceRow_lat, getCell_coerceRow_lon, ha, ho]
    rfl
  have hany : (dropnaLatLon (s.map coerceRow ++ g.map coerceRow)).any
      (fun r => getCell r "libCode" = c) = true := by
    rw [List.any_eq_true]
    refine ⟨coerceRow r0, hmemL, ?_⟩
    simp [getCell_coerceRow_code, hr0c]
  constructor
  · rw [hL, dropDup_countP]
    simp [hany]
  · rw [hL, dropDup_find? _ _ _ (by simp), coerce_both, List.map_append]

/-- Witness for C7 (amended): code "A" occurs in both regions with parseable
coordinates and survives exactly once. -/
theorem C7_combined_dedup_witness :
    (libraryCombine [rowGoodA1] [rowGoodA2, rowGoodB]).countP
      (fun r => getCell r "libCode" = Cell.str "A") = 1 ∧
    (libraryCombine [rowGoodA1] [rowGoodA2, rowGoodB]).find?
      (fun r => getCell r "libCode" = Cell.str "A") =
      (dropnaLatLon (coerceCol (coerceCol ([rowGoodA1] ++ [rowGoodA2, rowGoodB])
        "latitude") "longitude")).find?
        (fun r => getCell r "libCode" = Cell.str "A") :=
  C7_combined_dedup [rowGoodA1] [rowGoodA2, rowGoodB] (Cell.str "A")
    ⟨rowGoodA1, List.Mem.head _, by decide⟩
    ⟨rowGoodA2, List.Mem.head _, by decide⟩
    (by
      intro r hr _
      simp only [List.cons_append, List.nil_append, List.mem_cons,
        List.not_mem_nil, or_false] at hr
      rcases hr with rfl | rfl | rfl
      · exact ⟨⟨_, _, rfl⟩, ⟨_, _, rfl⟩⟩
      · exact ⟨⟨_, _, rfl⟩, ⟨_, _, rfl⟩⟩
      · exact ⟨⟨_, _, rfl⟩, ⟨_, _, rfl⟩⟩)

/-- C7 counterexample: the two result sets share exactly the code "A", but
both records carrying it have unparseable latitude, so the coordinate filter
that runs before de-duplication drops them and the combined sequence
contains the code zero times, not once. -/
theorem C7_shared_code_counterexample :
    (libraryCombine [rowBadA1] [rowBadA2]).countP
      (fun r => getCell r "libCode" = Cell.str "A") = 0 ∧
    getCell rowBadA1 "libCode" = Cell.str "A" ∧
    getCell rowBadA2 "libCode" = Cell.str "A" := by
  refine ⟨?_, ?_, ?_⟩ <;> decide

/-- C8: every record reaching the display/map step has numerically parsed
latitude and longitude: whatever frame `render_map` hands to `st.map` equals
the input frame coerced to numeric coordinates and filtered to the rows
where both parsed, so every displayed row carries numeric latitude and
longitude cells; on the concrete frame holding one record with latitude
"37.5" / longitude "127.0" and one with latitude "invalid" / longitude
"127.0", exactly the first is kept. -/
theorem C8_display_filtered :
    (∀ h r h' rd, render_map h r = (h', some rd) →
      hget h' rd =
        dropnaLatLon (coerceCol (coerceCol (hget h r) "latitude")
          "longitude") ∧
      ∀ row ∈ hget h' rd,
        (∃ n d, getCell row "latitude" = Cell.num n d) ∧
        (∃ n d, getCell row "longitude" = Cell.num n d)) ∧
    (render_map [(0, [rowL1, rowL2])] 0).2 = some 1 ∧
    (hget (render_map [(0, [rowL1, rowL2])] 0).1 1).map
      (fun row => getCell row "libCode") = [Cell.str "L1"] := by
  refine ⟨?_, by decide, by decide⟩
  intro h r h' rd hc
  simp only [render_map] at hc
  split at hc
  · simp at hc
  · split at hc
    · simp at hc
    · split at hc
      · simp at hc
      · rw [Prod.mk.injEq] at hc
        obtain ⟨hh, hrd⟩ := hc
        obtain rfl := Option.some.inj hrd
        subst hh
        have heq : hget
            (hset (hset (hset (hset h (hfresh h) (hget h r)) (hfresh h)
              (coerceCol (hget (hset h (hfresh h) (hget h r)) (hfresh h))
                "latitude")) (hfresh h)
              (coerceCol (hget (hset (hset h (hfresh h) (hget h r)) (hfresh h)
                (coerceCol (hget (hset h (hfresh h) (hget h r)) (hfresh h))
                  "latitude")) (hfresh h)) "longitude")) (hfresh h)
              (dropnaLatLon (hget (hset (hset (hset h (hfresh h) (hget h r))
                (hfresh h)
                (coerceCol (hget (hset h (hfresh h) (hget h r)) (hfresh h))
                  "latitude")) (hfresh h)
                (coerceCol (hget (hset (hset h (hfresh h) (hget h r))
                  (hfresh h)
                  (coerceCol (hget (hset h (hfresh h) (hget h r)) (hfresh h))
                    "latitude")) (hfresh h)) "longitude")) (hfresh h))))
            (hfresh h) =
            dropnaLatLon (coerceCol (coerceCol (hget h r) "latitude")
              "longitude") := by
          simp [hget_hset_self]
        refine ⟨heq, ?_⟩
        intro row hrow
        rw [heq, dropnaLatLon] at hrow
        obtain ⟨hmem, hpred⟩ := List.mem_filter.mp hrow
        rw [coerce_both] at hmem
        obtain ⟨orig, -, rfl⟩ := List.mem_map.mp hmem
        rw [Bool.and_eq_true] at hpred
        obtain ⟨hplat, hplon⟩ := hpred
        constructor
        · rcases toNumericCell_num_or_nan (getCell orig "latitude") with
            ⟨n, d, hq⟩ | hnan
          · exact ⟨n, d, by rw [getCell_coerceRow_lat, hq]⟩
          · rw [getCell_coerceRow_lat, hnan] at hplat
            simp [Cell.isNan] at hplat
        · rcases toNumericCell_num_or_nan (getCell orig "longitude") with
            ⟨n, d, hq⟩ | hnan
          · exact ⟨n, d, by rw [getCell_coerceRow_lon, hq]⟩
          · rw [getCell_coerceRow_lon, hnan] at hplon
            simp [Cell.isNan] at hplon

/-- Witness for C8 on the concrete two-record frame. -/
theorem C8_display_filtered_witness :
    hget ((render_map [(0, [rowL1, rowL2])] 0).1) 1 =
      dropnaLatLon (coerceCol (coerceCol (hget [(0, [rowL1, rowL2])] 0)
        "latitude") "longitude") :=
  (C8_display_filtered.1 [(0, [rowL1, rowL2])] 0
    (render_map [(0, [rowL1, rowL2])] 0).1 1 (by decide)).1

/-- C10: the map-rendering step leaves its argument unchanged: the numeric
coercion and the dropping of unparseable rows are performed on the copy
allocated by `locations_df.copy()`, so after the call the caller's reference
holds exactly the rows and values it held before. -/
theorem C10_render_map_preserves_input (h : Heap) (r : Nat) :
    hget (render_map h r).1 r = hget h r := by
  simp only [render_map]
  by_cases h1 : (hget h r).isEmpty
  · simp [h1]
  · have hne : hfresh h ≠ r := by
      apply hfresh_ne_alloc
      intro hnone
      apply h1
      rw [hget, hnone]
      rfl
    simp only [h1, if_false, Bool.false_eq_true]
    split
    · rfl
    · split <;>
        simp [hget_hset_ne _ _ _ _ hne]
